import Mathlib

/-!
Verification of the alarm notification router (`src/router.py`).

The router receives a batch of SNS-delivered CloudWatch alarm records and,
per record, either sends one templated e-mail per configured recipient
(when the trigger's namespace is `"ETL"`) or one Teams message card
(otherwise), through a single synchronous downstream lambda invocation
per payload.

This file shallowly embeds the Python source: the pure data flow of
`handler` becomes a function from a configuration and a record batch to
the ordered list of dispatcher payloads (with an optional abort error),
`send_payload` becomes a function on the modelled invocation response,
and the Python stdlib pieces the source leans on (`str.split`,
`str.strip`, `str.replace`, `urllib.parse.quote`,
`datetime.fromisoformat` / `datetime.isoformat` as of CPython < 3.11)
are modelled character-by-character.  Exception sites in the Python code
are mapped to the spec's error taxonomy (`MalformedMessage`,
`MalformedTimestamp`, `MalformedArn`, `UnknownAlarm`, `UnknownState`).
-/

/-- The ten decimal digit characters, as Python's number formatting emits
them. Explicit per-digit match so that evaluation is by cases. -/
def digitChar (n : Nat) : Char :=
  match n with
  | 0 => '0' | 1 => '1' | 2 => '2' | 3 => '3' | 4 => '4'
  | 5 => '5' | 6 => '6' | 7 => '7' | 8 => '8' | 9 => '9'
  | _ => '*'

/-- Read a decimal digit character back to its value; `none` on
non-digits. -/
def digitVal (c : Char) : Option Nat :=
  if '0' ≤ c ∧ c ≤ '9' then some (c.toNat - '0'.toNat) else none

/-- Two-digit zero-padded decimal rendering (`%02d`), as `datetime.isoformat`
uses for month, day, hour, minute, second and offset components. -/
def pad2 (n : Nat) : List Char := [digitChar (n / 10), digitChar (n % 10)]

/-- Four-digit zero-padded decimal rendering (`%04d`) for the year. -/
def pad4 (n : Nat) : List Char :=
  [digitChar (n / 1000), digitChar (n / 100 % 10), digitChar (n / 10 % 10),
   digitChar (n % 10)]

/-- Six-digit zero-padded decimal rendering (`%06d`) for microseconds. -/
def pad6 (n : Nat) : List Char :=
  [digitChar (n / 100000), digitChar (n / 10000 % 10), digitChar (n / 1000 % 10),
   digitChar (n / 100 % 10), digitChar (n / 10 % 10), digitChar (n % 10)]

/-- Consume exactly two decimal digits, returning their value and the
remaining characters. -/
def read2 : List Char → Option (Nat × List Char)
  | a :: b :: rest =>
    match digitVal a, digitVal b with
    | some x, some y => some (x * 10 + y, rest)
    | _, _ => none
  | _ => none

/-- Consume exactly four decimal digits. -/
def read4 : List Char → Option (Nat × List Char)
  | a :: b :: c :: d :: rest =>
    match digitVal a, digitVal b, digitVal c, digitVal d with
    | some w, some x, some y, some z => some (((w * 10 + x) * 10 + y) * 10 + z, rest)
    | _, _, _, _ => none
  | _ => none

/-- Consume exactly three decimal digits (millisecond fraction). -/
def read3 : List Char → Option (Nat × List Char)
  | a :: b :: c :: rest =>
    match digitVal a, digitVal b, digitVal c with
    | some x, some y, some z => some ((x * 10 + y) * 10 + z, rest)
    | _, _, _ => none
  | _ => none

/-- Consume exactly six decimal digits (microsecond fraction). -/
def read6 (l : List Char) : Option (Nat × List Char) :=
  match read3 l with
  | some (hi, rest) =>
    match read3 rest with
    | some (lo, rest2) => some (hi * 1000 + lo, rest2)
    | none => none
  | none => none

/-- Python `str.split(sep)` for a one-character separator, on character
lists: splits at every occurrence, keeping empty pieces, and always
returns at least one piece. `acc` carries the current piece reversed. -/
def splitChar : List Char → Char → List Char → List (List Char)
  | [], _, acc => [acc.reverse]
  | c :: cs, sep, acc =>
    if c = sep then acc.reverse :: splitChar cs sep []
    else splitChar cs sep (c :: acc)

/-- Python `str.split(sep)` for a one-character separator. -/
def pySplit (s : String) (sep : Char) : List String :=
  (splitChar s.data sep []).map fun l => ⟨l⟩

/-- The characters Python `str.strip()` removes by default (the ASCII
whitespace subset; the router's config values only contain these). -/
def pyIsSpace (c : Char) : Bool :=
  c = ' ' ∨ c = '\t' ∨ c = '\n' ∨ c = '\r' ∨ c = '\x0b' ∨ c = '\x0c'

/-- Python `str.strip()`: drop leading and trailing whitespace. -/
def pyStrip (s : String) : String :=
  ⟨((s.data.dropWhile pyIsSpace).reverse.dropWhile pyIsSpace).reverse⟩

/-- Join character lists with a separator character — the inverse
direction of `splitChar`, used to state what "colon-delimited segment"
means. -/
def joinWith (sep : Char) : List (List Char) → List Char
  | [] => []
  | [x] => x
  | x :: y :: xs => x ++ sep :: joinWith sep (y :: xs)

/-- String-level `joinWith`. -/
def strJoinWith (sep : Char) (xs : List String) : String :=
  ⟨joinWith sep (xs.map String.data)⟩

/-- Python `timestamp.replace("Z", "+00:00")` from `handler`: every
occurrence of the one-character pattern `"Z"` is replaced. -/
def replaceZ (s : String) : String :=
  ⟨(s.data.map fun c =>
      if c = 'Z' then ('+' :: '0' :: '0' :: ':' :: '0' :: '0' :: []) else [c]).flatten⟩

/-- Uppercase hexadecimal digit, as `urllib.parse.quote` uses in percent
escapes. -/
def hexDigit (n : Nat) : Char :=
  match n with
  | 0 => '0' | 1 => '1' | 2 => '2' | 3 => '3' | 4 => '4'
  | 5 => '5' | 6 => '6' | 7 => '7' | 8 => '8' | 9 => '9'
  | 10 => 'A' | 11 => 'B' | 12 => 'C' | 13 => 'D' | 14 => 'E' | 15 => 'F'
  | _ => '*'

/-- Percent escape (uppercase hex) of one byte. -/
def percentByte (b : Nat) : List Char := ['%', hexDigit (b / 16), hexDigit (b % 16)]

/-- UTF-8 encoding of one code point, byte values as `Nat`. -/
def utf8Bytes (c : Char) : List Nat :=
  let n := c.toNat
  if n < 0x80 then [n]
  else if n < 0x800 then [0xC0 + n / 64, 0x80 + n % 64]
  else if n < 0x10000 then [0xE0 + n / 4096, 0x80 + n / 64 % 64, 0x80 + n % 64]
  else [0xF0 + n / 262144, 0x80 + n / 4096 % 64, 0x80 + n / 64 % 64, 0x80 + n % 64]

/-- Characters `urllib.parse.quote` leaves unescaped with its default
`safe='/'`: ASCII letters, digits, `_.-~` and `/`. -/
def quoteSafe (c : Char) : Bool :=
  ('A' ≤ c ∧ c ≤ 'Z') ∨ ('a' ≤ c ∧ c ≤ 'z') ∨ ('0' ≤ c ∧ c ≤ '9') ∨
    c = '_' ∨ c = '.' ∨ c = '-' ∨ c = '~' ∨ c = '/'

/-- Python `urllib.parse.quote(s)` with the default safe set: UTF-8 encode and
percent-escape every byte of every non-safe character, uppercase hex. -/
def quote (s : String) : String :=
  ⟨(s.data.map fun c =>
      if quoteSafe c then [c] else ((utf8Bytes c).map percentByte).flatten).flatten⟩

/-- The naive/aware datetime value `datetime.fromisoformat` produces:
calendar fields plus an optional UTC offset in minutes (`None` for a
naive datetime). Offsets with second/microsecond parts are outside the
model; `isoformat` renders a whole-minute offset as `±HH:MM`. -/
structure PyDatetime where
  year : Nat
  month : Nat
  day : Nat
  hour : Nat
  minute : Nat
  second : Nat
  microsecond : Nat
  utcoffset : Option Int
deriving DecidableEq, Repr

/-- Gregorian leap year test, as `datetime` uses for day-of-month
validation. -/
def isLeap (y : Nat) : Bool := y % 4 = 0 ∧ (y % 100 ≠ 0 ∨ y % 400 = 0)

/-- Length of a month, as the `datetime` constructor validates it. -/
def daysInMonth (y m : Nat) : Nat :=
  match m with
  | 1 => 31 | 2 => if isLeap y then 29 else 28 | 3 => 31 | 4 => 30
  | 5 => 31 | 6 => 30 | 7 => 31 | 8 => 31 | 9 => 30 | 10 => 31
  | 11 => 30 | 12 => 31 | _ => 0

/-- The range checks the `datetime` constructor performs (`MINYEAR = 1`,
`MAXYEAR = 9999`; an offset must be strictly shorter than one day). -/
def validDt (dt : PyDatetime) : Bool :=
  1 ≤ dt.year ∧ dt.year ≤ 9999 ∧ 1 ≤ dt.month ∧ dt.month ≤ 12 ∧
  1 ≤ dt.day ∧ dt.day ≤ daysInMonth dt.year dt.month ∧
  dt.hour ≤ 23 ∧ dt.minute ≤ 59 ∧ dt.second ≤ 59 ∧ dt.microsecond ≤ 999999 ∧
  dt.utcoffset.all fun off => off.natAbs ≤ 1439

/-- Return the value if `validDt` holds, else a `ValueError` — the constructor call
at the end of parsing. -/
def checkValid (dt : PyDatetime) : Option PyDatetime :=
  if validDt dt then some dt else none

/-- Split a character list at the first occurrence of `sep`, keeping the
separator at the head of the second part; `none` when absent. -/
def breakAt (sep : Char) : List Char → Option (List Char × List Char)
  | [] => none
  | c :: cs =>
    if c = sep then some ([], c :: cs)
    else
      match breakAt sep cs with
      | some (a, b) => some (c :: a, b)
      | none => none

/-- CPython's split of the time string from its optional UTC-offset tail:
the part after the first `'-'` if any, else after the first `'+'`, is
the offset string. -/
def tzSplit (l : List Char) : List Char × List Char :=
  match breakAt '-' l with
  | some p => p
  | none =>
    match breakAt '+' l with
    | some p => p
    | none => (l, [])

/-- Fractional-second digits: CPython < 3.11 accepts exactly 3 or 6
digits, a 3-digit fraction being milliseconds. -/
def parseFrac (l : List Char) : Option Nat :=
  if l.length = 3 then (read3 l).map fun p => p.1 * 1000
  else if l.length = 6 then (read6 l).map fun p => p.1
  else none

/-- Time of day `HH[:MM[:SS[.fff|.ffffff]]]`, the whole list consumed. -/
def parseTimePart (l : List Char) : Option (Nat × Nat × Nat × Nat) :=
  match read2 l with
  | none => none
  | some (h, rest) =>
    match rest with
    | [] => some (h, 0, 0, 0)
    | ':' :: r1 =>
      match read2 r1 with
      | none => none
      | some (mi, rest2) =>
        match rest2 with
        | [] => some (h, mi, 0, 0)
        | ':' :: r2 =>
          match read2 r2 with
          | none => none
          | some (s, rest3) =>
            match rest3 with
            | [] => some (h, mi, s, 0)
            | '.' :: fr => (parseFrac fr).map fun us => (h, mi, s, us)
            | _ => none
        | _ => none
    | _ => none

/-- Optional UTC offset `±HH:MM` (the form `isoformat` emits for the
whole-minute offsets occurring here), in minutes; `some none` when the
offset string is empty (a naive datetime). -/
def parseTzPart (l : List Char) : Option (Option Int) :=
  match l with
  | [] => some none
  | '+' :: r =>
    match read2 r with
    | some (h, ':' :: r2) =>
      match read2 r2 with
      | some (m, []) => some (some ((h * 60 + m : Nat) : Int))
      | _ => none
    | _ => none
  | '-' :: r =>
    match read2 r with
    | some (h, ':' :: r2) =>
      match read2 r2 with
      | some (m, []) => some (some (-((h * 60 + m : Nat) : Int)))
      | _ => none
    | _ => none
  | _ => none

/-- CPython < 3.11 `datetime.fromisoformat` on a character list:
`YYYY-MM-DD`, then optionally one separator character (any character)
followed by a time string, whose offset tail is split off at the first
sign character; all fields range-checked by the constructor. -/
def fromisoChars (l : List Char) : Option PyDatetime :=
  match read4 l with
  | none => none
  | some (y, r1) =>
    match r1 with
    | '-' :: r2 =>
      match read2 r2 with
      | none => none
      | some (mo, r3) =>
        match r3 with
        | '-' :: r4 =>
          match read2 r4 with
          | none => none
          | some (d, r5) =>
            match r5 with
            | [] => checkValid ⟨y, mo, d, 0, 0, 0, 0, none⟩
            | _ :: tstr =>
              match parseTimePart (tzSplit tstr).1, parseTzPart (tzSplit tstr).2 with
              | some (h, mi, s, us), some off => checkValid ⟨y, mo, d, h, mi, s, us, off⟩
              | _, _ => none
        | _ => none
    | _ => none

/-- Python `datetime.datetime.fromisoformat`. -/
def fromisoformat (s : String) : Option PyDatetime := fromisoChars s.data

/-- The fractional part `isoformat` emits: `.ffffff` exactly when the
microsecond is nonzero. -/
def fracPart (dt : PyDatetime) : List Char :=
  if dt.microsecond = 0 then [] else '.' :: pad6 dt.microsecond

/-- The offset tail `isoformat` emits: empty for a naive value, else
`±HH:MM`. -/
def offPart (dt : PyDatetime) : List Char :=
  match dt.utcoffset with
  | none => []
  | some off =>
    (if off < 0 then '-' else '+') ::
      pad2 (off.natAbs / 60) ++ ':' :: pad2 (off.natAbs % 60)

/-- The time-of-day part of `isoformat`, without the offset:
`HH:MM:SS[.ffffff]`. -/
def timeOnly (dt : PyDatetime) : List Char :=
  pad2 dt.hour ++ ':' :: pad2 dt.minute ++ ':' :: pad2 dt.second ++ fracPart dt

/-- Python `datetime.isoformat()`: `YYYY-MM-DDTHH:MM:SS`, a `.ffffff` fraction
only when the microsecond is nonzero, and a `±HH:MM` offset for an
aware value. -/
def isoformat (dt : PyDatetime) : String :=
  ⟨pad4 dt.year ++ '-' :: pad2 dt.month ++ '-' :: pad2 dt.day ++
    'T' :: (timeOnly dt ++ offPart dt)⟩

/-- Line 56 of `router.py`:
`datetime.datetime.fromisoformat(ts.replace("Z", "+00:00"))`; `none`
models the uncaught `ValueError` (`MalformedTimestamp`). -/
def parse_timestamp (s : String) : Option PyDatetime := fromisoformat (replaceZ s)

/-- The `Trigger` object of a CloudWatch alarm message, with the fields
`handler` reads. Numeric fields (`Threshold`, `EvaluationPeriods`,
`Period`) are carried as their rendered strings, since the router only
interpolates or copies them. Presence of these sub-fields is assumed
(the claims under verification only exercise absence of `Trigger`
itself). -/
structure Trigger where
  Namespace : String
  Statistic : String
  MetricName : String
  ComparisonOperator : String
  Threshold : String
  EvaluationPeriods : String
  Period : String
deriving DecidableEq, Repr

/-- The decoded SNS message dictionary, each key `handler` accesses
modelled as optional: `none` models a `KeyError` on access
(`MalformedMessage` in the spec's taxonomy). -/
structure AlarmMessage where
  AlarmName : Option String
  OldStateValue : Option String
  NewStateValue : Option String
  NewStateReason : Option String
  Trigger : Option Trigger
deriving DecidableEq, Repr

/-- Model of `record['Sns']`: the raw message string is modelled post-`json.loads`,
`none` standing for a string that is not valid JSON. -/
structure SnsData where
  Message : Option AlarmMessage
  Timestamp : String
deriving DecidableEq, Repr

/-- One record of the event batch. -/
structure SnsRecord where
  Sns : SnsData
  EventSubscriptionArn : String
deriving DecidableEq, Repr

/-- The static `config.ini` contents: the `[Recipients]` section maps an
alarm name to a comma-separated address list (`none` models
`NoOptionError`, the spec's `UnknownAlarm`), and `[Templates] ETLAlarm`
holds the e-mail template id (assumed present, as the deployed config
guarantees). -/
structure Config where
  Recipients : String → Option String
  ETLAlarmTemplate : String

/-- The `COLOURS` table from lines 18-22 of `router.py`, as the partial lookup the
subscript `COLOURS[new_state]` performs: `none` models the `KeyError`
(the spec's `UnknownState`). -/
def COLOURS (state : String) : Option String :=
  if state = "INSUFFICIENT_DATA" then some "fce94f"
  else if state = "ALARM" then some "ef2929"
  else if state = "OK" then some "acda00"
  else none

/-- Function `get_recipients` (lines 46-47): split the configured value on commas
and strip each piece; `none` when the alarm name has no entry. -/
def get_recipients (cfg : Config) (alarm_name : String) : Option (List String) :=
  (cfg.Recipients alarm_name).map fun s => (pySplit s ',').map pyStrip

/-- The template-variables dictionary built at lines 70-84. -/
structure TemplateVars where
  alarm_name : String
  statistic : String
  metric_name : String
  operator : String
  threshold : String
  eval_periods : String
  period : String
  time : String
  old_state : String
  new_state : String
  reason : String
  region : String
  quoted_alarm_name : String
deriving DecidableEq, Repr

/-- One `facts` entry of the message card. -/
structure CardFact where
  name : String
  value : String
deriving DecidableEq, Repr

/-- One `sections` entry of the message card. -/
structure CardSection where
  title : String
  text : String
  facts : List CardFact
deriving DecidableEq, Repr

/-- One `targets` entry of a card action. -/
structure Target where
  os : String
  uri : String
deriving DecidableEq, Repr

/-- One `potentialAction` entry of the message card. -/
structure CardAction where
  atType : String
  name : String
  targets : List Target
deriving DecidableEq, Repr

/-- The `body` dictionary of the Teams payload (lines 90-135); the JSON
keys `@type` and `@context` are spelled `atType` / `atContext`. -/
structure CardBody where
  atType : String
  atContext : String
  summary : String
  title : String
  themeColor : String
  sections : List CardSection
  potentialAction : List CardAction
deriving DecidableEq, Repr

/-- A dispatcher payload: the e-mail dictionary of lines 66-85
(`message_type == "email"`) or the Teams dictionary of lines 88-136
(`message_type == "teams"`). -/
inductive Payload where
  | email («to» : String) (template_id : String) (template_vars : TemplateVars)
  | teams (body : CardBody)
deriving DecidableEq, Repr

/-- The errors that abort `handler`, named after the spec's taxonomy;
each corresponds to one uncaught Python exception site:
`json.JSONDecodeError` / `KeyError` on the message dictionary,
`ValueError` from `fromisoformat`, `IndexError` on the ARN split,
`configparser.NoOptionError`, and `KeyError` on `COLOURS`. -/
inductive RouterErr where
  | MalformedMessage
  | MalformedTimestamp
  | MalformedArn
  | UnknownAlarm
  | UnknownState
deriving DecidableEq, Repr

/-- Outcome of `lamb.invoke(...)` inside `send_payload`: either the call
raises `botocore.exceptions.ClientError`, or it returns a response
dictionary with an optional `FunctionError` field and a body
(`resp['Payload'].read()`). -/
inductive LambdaInvoke where
  | clientError
  | resp (FunctionError : Option String) (body : String)
deriving DecidableEq, Repr

/-- How `send_payload` fails, named after the spec's taxonomy:
`DownstreamNotifyFailed` is the `RuntimeError` raised on a
`FunctionError` response field (not caught by the `except ClientError`
clause), `DispatchTransportError` the `ClientError` re-raised by
`raise`. -/
inductive SendErr where
  | DownstreamNotifyFailed
  | DispatchTransportError
deriving DecidableEq, Repr

/-- Function `send_payload` (lines 31-43), as a function of the invocation
outcome. The first component lists the log lines emitted before
returning or raising; the second is the returned body or the error
raised. -/
def send_payload (r : LambdaInvoke) : List String × Except SendErr String :=
  match r with
  | .clientError =>
    (["Error when invoking DevOps notify."], .error .DispatchTransportError)
  | .resp err body =>
    match err with
    | some e => (["FunctionError: " ++ e], .error .DownstreamNotifyFailed)
    | none => ([], .ok body)

/-- The `template_vars` dictionary of lines 70-84. -/
def emailTemplateVars (alarm_name : String) (trigger : Trigger)
    (timestamp : PyDatetime) (old_state new_state reason region : String) :
    TemplateVars :=
  { alarm_name := alarm_name
    statistic := trigger.Statistic
    metric_name := trigger.MetricName
    operator := trigger.ComparisonOperator
    threshold := trigger.Threshold
    eval_periods := trigger.EvaluationPeriods
    period := trigger.Period
    time := isoformat timestamp
    old_state := old_state
    new_state := new_state
    reason := reason
    region := region
    quoted_alarm_name := quote alarm_name }

/-- The f-string of lines 99-101 (the source writes `periods(s)`). -/
def cardText (trigger : Trigger) : String :=
  trigger.Statistic ++ " " ++ trigger.MetricName ++ " " ++
    trigger.ComparisonOperator ++ " " ++ trigger.Threshold ++ " for " ++
    trigger.EvaluationPeriods ++ " periods(s) of " ++ trigger.Period ++
    " seconds."

/-- The console link of lines 129-130. -/
def consoleUri (region alarm_name : String) : String :=
  "https://console.aws.amazon.com/cloudwatch/home?region=" ++ region ++
    "#alarm:alarmFilter=ANY;name=" ++ quote alarm_name

/-- The Teams card body of lines 90-135. -/
def cardBody (alarm_name colour : String) (trigger : Trigger)
    (timestamp : PyDatetime) (old_state new_state reason region : String) :
    CardBody :=
  { atType := "MessageCard"
    atContext := "https://schema.org/extensions"
    summary := "AWS Cloudwatch Alarm: " ++ alarm_name ++ " has transitioned"
    title := "AWS Cloudwatch Alarm"
    themeColor := colour
    sections := [
      { title := alarm_name ++ " has transitioned"
        text := cardText trigger
        facts := [
          { name := "Time", value := isoformat timestamp },
          { name := "Old State", value := old_state },
          { name := "New State", value := new_state },
          { name := "Reason", value := reason }] }]
    potentialAction := [
      { atType := "OpenUri"
        name := "Link to Alarm"
        targets := [{ os := "default", uri := consoleUri region alarm_name }] }] }

/-- The body of `handler`'s per-record loop (lines 54-137), in source
order: message decode (line 54), timestamp parse (line 56), ARN split
and index (line 57), field reads (lines 58-62), then the namespace
branch (line 63). Returns the payloads passed to `send_payload` for
this record, in order, or the error aborting the batch. -/
def processRecord (cfg : Config) (record : SnsRecord) :
    Except RouterErr (List Payload) :=
  match record.Sns.Message with
  | none => .error .MalformedMessage
  | some message =>
    match parse_timestamp record.Sns.Timestamp with
    | none => .error .MalformedTimestamp
    | some timestamp =>
      match (pySplit record.EventSubscriptionArn ':')[3]? with
      | none => .error .MalformedArn
      | some region =>
        match message.AlarmName, message.OldStateValue, message.NewStateValue,
            message.NewStateReason, message.Trigger with
        | some alarm_name, some old_state, some new_state, some reason,
            some trigger =>
          if trigger.Namespace = "ETL" then
            match get_recipients cfg alarm_name with
            | none => .error .UnknownAlarm
            | some recipients =>
              .ok (recipients.map fun recipient =>
                .email recipient cfg.ETLAlarmTemplate
                  (emailTemplateVars alarm_name trigger timestamp old_state
                    new_state reason region))
          else
            match COLOURS new_state with
            | none => .error .UnknownState
            | some colour =>
              .ok [.teams (cardBody alarm_name colour trigger timestamp
                old_state new_state reason region)]
        | _, _, _, _, _ => .error .MalformedMessage

/-- Function `handler` (lines 50-137) over the batch `event['Records']`: the
ordered list of payloads handed to `send_payload` (each dispatch assumed
to succeed), paired with the error that aborted the batch, when one
did. There is no early `return`: after a record is processed, the loop
continues with the next one. -/
def handler (cfg : Config) (records : List SnsRecord) :
    List Payload × Option RouterErr :=
  match records with
  | [] => ([], none)
  | r :: rest =>
    match processRecord cfg r with
    | .error e => ([], some e)
    | .ok ps =>
      let remaining := handler cfg rest
      (ps ++ remaining.1, remaining.2)

/-- A trigger whose namespace is not the `"ETL"` sentinel. -/
def trigCard : Trigger :=
  ⟨"AWS/Lambda", "Average", "MyMetric", "GreaterThanThreshold", "5.0", "3", "60"⟩

/-- The same trigger on the `"ETL"` namespace. -/
def trigETL : Trigger :=
  ⟨"ETL", "Average", "MyMetric", "GreaterThanThreshold", "5.0", "3", "60"⟩

/-- A well-formed alarm message on the card branch. -/
def msgCard : AlarmMessage :=
  ⟨some "MyAlarm", some "OK", some "ALARM", some "threshold crossed", some trigCard⟩

/-- A well-formed alarm message on the e-mail branch. -/
def msgETL : AlarmMessage :=
  ⟨some "MyAlarm", some "OK", some "ALARM", some "threshold crossed", some trigETL⟩

/-- An SNS delivery timestamp in the shape SNS emits. -/
def tsX : String := "2017-01-12T16:30:42.318Z"

/-- The datetime `tsX` denotes. -/
def dtX : PyDatetime := ⟨2017, 1, 12, 16, 30, 42, 318000, some 0⟩

/-- A subscription ARN with region `eu-west-1` in the fourth segment. -/
def arnX : String := "arn:aws:sns:eu-west-1:123456789012:my-topic:subid"

/-- A record taking the card branch. -/
def cardRec : SnsRecord := ⟨⟨some msgCard, tsX⟩, arnX⟩

/-- A record taking the e-mail branch. -/
def etlRec : SnsRecord := ⟨⟨some msgETL, tsX⟩, arnX⟩

/-- A record whose SNS message is not valid JSON. -/
def badRec : SnsRecord := ⟨⟨none, tsX⟩, arnX⟩

/-- A config with one recipients entry, `MyAlarm -> "a@x.com, b@x.com"`. -/
def testCfg : Config :=
  ⟨fun name => if name = "MyAlarm" then some "a@x.com, b@x.com" else none,
   "tmpl-etl-1"⟩

/-- C4: for every dispatcher invocation, a response carrying the
`FunctionError` field is logged and turned into `DownstreamNotifyFailed`
without returning the body; a `ClientError` from the call is logged and
re-raised unchanged as the transport error; otherwise the response body
is read and returned. -/
theorem C4_send_payload_cases (r : LambdaInvoke) :
    (∀ e body, r = .resp (some e) body →
      send_payload r =
        (["FunctionError: " ++ e], .error .DownstreamNotifyFailed)) ∧
    (r = .clientError →
      send_payload r =
        (["Error when invoking DevOps notify."], .error .DispatchTransportError)) ∧
    (∀ body, r = .resp none body → send_payload r = ([], .ok body)) := by
  refine ⟨?_, ?_, ?_⟩
  · intro e body h; subst h; rfl
  · intro h; subst h; rfl
  · intro body h; subst h; rfl

/-- Closed instance of `C4_send_payload_cases` at concrete responses. -/
theorem C4_send_payload_cases_witness :
    send_payload (.resp (some "Unhandled") "b") =
      (["FunctionError: Unhandled"], .error .DownstreamNotifyFailed) ∧
    send_payload .clientError =
      (["Error when invoking DevOps notify."], .error .DispatchTransportError) ∧
    send_payload (.resp none "ok-body") = ([], .ok "ok-body") :=
  ⟨(C4_send_payload_cases _).1 "Unhandled" "b" rfl,
   (C4_send_payload_cases _).2.1 rfl,
   (C4_send_payload_cases _).2.2 "ok-body" rfl⟩

/-- C5: the colour table holds exactly the three states OK/ALARM/
INSUFFICIENT_DATA with the fixed colours; on the card branch the
payload's `themeColor` is the table's value for `newState`, and any
other `newState` aborts with `UnknownState` (the `KeyError` on
`COLOURS[new_state]`). -/
theorem C5_colour_table (cfg : Config) (ts arn : String)
    (an os ns rs : String) (trig : Trigger) (T : PyDatetime) (region : String)
    (hts : parse_timestamp ts = some T)
    (harn : (pySplit arn ':')[3]? = some region)
    (hns : trig.Namespace ≠ "ETL") :
    COLOURS "OK" = some "acda00" ∧ COLOURS "ALARM" = some "ef2929" ∧
    COLOURS "INSUFFICIENT_DATA" = some "fce94f" ∧
    (∀ s, s ≠ "OK" → s ≠ "ALARM" → s ≠ "INSUFFICIENT_DATA" → COLOURS s = none) ∧
    (COLOURS ns = none →
      processRecord cfg ⟨⟨some ⟨some an, some os, some ns, some rs, some trig⟩, ts⟩, arn⟩ =
        .error .UnknownState) ∧
    (∀ colour, COLOURS ns = some colour →
      processRecord cfg ⟨⟨some ⟨some an, some os, some ns, some rs, some trig⟩, ts⟩, arn⟩ =
          .ok [.teams (cardBody an colour trig T os ns rs region)] ∧
        (cardBody an colour trig T os ns rs region).themeColor = colour) := by
  refine ⟨rfl, rfl, rfl, ?_, ?_, ?_⟩
  · intro s h1 h2 h3
    simp [COLOURS, h1, h2, h3]
  · intro hcol
    simp [processRecord, hts, harn, hns, hcol]
  · intro colour hcol
    refine ⟨?_, rfl⟩
    simp [processRecord, hts, harn, hns, hcol]

/-- Closed instance of `C5_colour_table`: a concrete ALARM record gets
`ef2929`, a concrete record in an unknown state aborts with
`UnknownState`. -/
theorem C5_colour_table_witness :
    processRecord testCfg
        ⟨⟨some ⟨some "MyAlarm", some "OK", some "ALARM", some "threshold crossed",
          some trigCard⟩, tsX⟩, arnX⟩ =
      .ok [.teams (cardBody "MyAlarm" "ef2929" trigCard dtX "OK" "ALARM"
        "threshold crossed" "eu-west-1")] ∧
    processRecord testCfg
        ⟨⟨some ⟨some "MyAlarm", some "OK", some "WEIRD", some "threshold crossed",
          some trigCard⟩, tsX⟩, arnX⟩ = .error .UnknownState :=
  ⟨((C5_colour_table testCfg tsX arnX "MyAlarm" "OK" "ALARM" "threshold crossed"
      trigCard dtX "eu-west-1" (by decide) (by decide) (by decide)).2.2.2.2.2
      "ef2929" rfl).1,
   (C5_colour_table testCfg tsX arnX "MyAlarm" "OK" "WEIRD" "threshold crossed"
      trigCard dtX "eu-west-1" (by decide) (by decide) (by decide)).2.2.2.2.1 rfl⟩

/-- C1: on the `"ETL"` namespace the recipient list for the alarm name
is looked up in the `[Recipients]` config (aborting with `UnknownAlarm`
when absent) and one e-mail payload per comma-separated recipient is
dispatched, in order, all identical except for the `to` field. -/
theorem C1_etl_recipients (cfg : Config) (ts arn an os ns rs region : String)
    (trig : Trigger) (T : PyDatetime)
    (hts : parse_timestamp ts = some T)
    (harn : (pySplit arn ':')[3]? = some region)
    (hns : trig.Namespace = "ETL") :
    (cfg.Recipients an = none →
      processRecord cfg ⟨⟨some ⟨some an, some os, some ns, some rs, some trig⟩, ts⟩, arn⟩ =
        .error .UnknownAlarm) ∧
    (∀ v, cfg.Recipients an = some v →
      processRecord cfg ⟨⟨some ⟨some an, some os, some ns, some rs, some trig⟩, ts⟩, arn⟩ =
        .ok (((pySplit v ',').map pyStrip).map fun recipient =>
          Payload.email recipient cfg.ETLAlarmTemplate
            (emailTemplateVars an trig T os ns rs region))) := by
  constructor
  · intro h
    simp [processRecord, get_recipients, hts, harn, hns, h]
  · intro v h
    simp [processRecord, get_recipients, hts, harn, hns, h]

/-- Closed instance of `C1_etl_recipients`: the config entry
`MyAlarm -> "a@x.com, b@x.com"` yields exactly two e-mail payloads,
identical but for the recipient, and an unconfigured alarm name aborts
with `UnknownAlarm`. -/
theorem C1_etl_recipients_witness :
    processRecord testCfg
        ⟨⟨some ⟨some "MyAlarm", some "OK", some "ALARM", some "threshold crossed",
          some trigETL⟩, tsX⟩, arnX⟩ =
      .ok [Payload.email "a@x.com" "tmpl-etl-1"
            (emailTemplateVars "MyAlarm" trigETL dtX "OK" "ALARM"
              "threshold crossed" "eu-west-1"),
           Payload.email "b@x.com" "tmpl-etl-1"
            (emailTemplateVars "MyAlarm" trigETL dtX "OK" "ALARM"
              "threshold crossed" "eu-west-1")] ∧
    processRecord testCfg
        ⟨⟨some ⟨some "OtherAlarm", some "OK", some "ALARM", some "threshold crossed",
          some trigETL⟩, tsX⟩, arnX⟩ = .error .UnknownAlarm := by
  constructor
  · have h := (C1_etl_recipients testCfg tsX arnX "MyAlarm" "OK" "ALARM"
      "threshold crossed" "eu-west-1" trigETL dtX (by decide) (by decide) rfl).2
      "a@x.com, b@x.com" rfl
    rw [h]; rfl
  · exact (C1_etl_recipients testCfg tsX arnX "OtherAlarm" "OK" "ALARM"
      "threshold crossed" "eu-west-1" trigETL dtX (by decide) (by decide) rfl).1
      (by decide)

/-- C10: on the `"ETL"` branch the colour table is never consulted — an
arbitrary `newState` never yields `UnknownState` — and the `newState`
string is copied verbatim into the `template_vars` of every e-mail
payload built for the record. -/
theorem C10_etl_state_unvalidated (cfg : Config)
    (ts arn an os ns rs region : String) (trig : Trigger) (T : PyDatetime)
    (hts : parse_timestamp ts = some T)
    (harn : (pySplit arn ':')[3]? = some region)
    (hns : trig.Namespace = "ETL") :
    processRecord cfg ⟨⟨some ⟨some an, some os, some ns, some rs, some trig⟩, ts⟩, arn⟩ ≠
      .error .UnknownState ∧
    (emailTemplateVars an trig T os ns rs region).new_state = ns ∧
    (∀ v, cfg.Recipients an = some v →
      ∀ p ∈ (processRecord cfg
          ⟨⟨some ⟨some an, some os, some ns, some rs, some trig⟩, ts⟩, arn⟩).toOption.getD [],
        ∃ rcp, p = Payload.email rcp cfg.ETLAlarmTemplate
          (emailTemplateVars an trig T os ns rs region)) := by
  refine ⟨?_, rfl, ?_⟩
  · rcases h : cfg.Recipients an with _ | v <;>
      simp [processRecord, get_recipients, hts, harn, hns, h]
  · intro v h p hp
    have heq : processRecord cfg
        ⟨⟨some ⟨some an, some os, some ns, some rs, some trig⟩, ts⟩, arn⟩ =
        .ok (((pySplit v ',').map pyStrip).map fun recipient =>
          Payload.email recipient cfg.ETLAlarmTemplate
            (emailTemplateVars an trig T os ns rs region)) := by
      simp [processRecord, get_recipients, hts, harn, hns, h]
    rw [heq] at hp
    simp only [Except.toOption, Option.getD_some] at hp
    rw [List.mem_map] at hp
    obtain ⟨rcp, -, rfl⟩ := hp
    exact ⟨rcp, rfl⟩

/-- Closed instance of `C10_etl_state_unvalidated` at the made-up state
`"BANANA"`, which is outside the colour table. -/
theorem C10_etl_state_unvalidated_witness :
    processRecord testCfg
        ⟨⟨some ⟨some "MyAlarm", some "OK", some "BANANA", some "threshold crossed",
          some trigETL⟩, tsX⟩, arnX⟩ ≠ .error .UnknownState ∧
    (emailTemplateVars "MyAlarm" trigETL dtX "OK" "BANANA" "threshold crossed"
      "eu-west-1").new_state = "BANANA" ∧
    (∀ p ∈ (processRecord testCfg
        ⟨⟨some ⟨some "MyAlarm", some "OK", some "BANANA", some "threshold crossed",
          some trigETL⟩, tsX⟩, arnX⟩).toOption.getD [],
      ∃ rcp, p = Payload.email rcp "tmpl-etl-1"
        (emailTemplateVars "MyAlarm" trigETL dtX "OK" "BANANA" "threshold crossed"
          "eu-west-1")) := by
  have h := C10_etl_state_unvalidated testCfg tsX arnX "MyAlarm" "OK" "BANANA"
    "threshold crossed" "eu-west-1" trigETL dtX (by decide) (by decide) rfl
  exact ⟨h.1, h.2.1, h.2.2 "a@x.com, b@x.com" rfl⟩

/-- When every record of a batch processes cleanly, `handler` dispatches
the per-record payload lists in order, concatenated, and no error is
raised. -/
theorem handler_ok_flatten (cfg : Config) (records : List SnsRecord)
    (h : ∀ r ∈ records, ∃ ps, processRecord cfg r = .ok ps) :
    handler cfg records =
      ((records.map fun r => (processRecord cfg r).toOption.getD []).flatten, none) := by
  induction records with
  | nil => rfl
  | cons r rest ih =>
    obtain ⟨ps, hr⟩ := h r (List.mem_cons_self r rest)
    have ih2 := ih fun p hp => h p (List.mem_cons_of_mem r hp)
    simp [handler, hr, ih2, Except.toOption]

/-- Counterexample to C2 as stated: a batch of two non-ETL records
yields two dispatcher calls, not one — there is no `return` after the
first record's card is sent. -/
theorem C2_card_per_record_cex :
    (handler testCfg [cardRec, cardRec]).1.length = 2 ∧
    ¬ (handler testCfg [cardRec, cardRec]).1.length = 1 := by
  constructor
  · rfl
  · intro h
    exact absurd ((rfl : (handler testCfg [cardRec, cardRec]).1.length = 2) ▸ h)
      (by decide)

/-- C2 (amended): the dispatcher is invoked once per payload — once per
recipient per record on the e-mail path and once per record on the card
path; processing does not return after the first record, so a batch of
non-ETL records yields exactly one dispatcher call per record. -/
theorem C2_dispatch_counts (cfg : Config) (records : List SnsRecord) :
    ((∀ r ∈ records, ∃ ps, processRecord cfg r = .ok ps) →
      handler cfg records =
        ((records.map fun r => (processRecord cfg r).toOption.getD []).flatten, none)) ∧
    ((∀ r ∈ records, ∃ body, processRecord cfg r = .ok [.teams body]) →
      (handler cfg records).1.length = records.length) ∧
    (∀ ts arn an os ns rs region trig T v,
      parse_timestamp ts = some T → (pySplit arn ':')[3]? = some region →
      Trigger.Namespace trig = "ETL" → cfg.Recipients an = some v →
      ∃ ps, processRecord cfg
          ⟨⟨some ⟨some an, some os, some ns, some rs, some trig⟩, ts⟩, arn⟩ = .ok ps ∧
        ps.length = ((pySplit v ',').map pyStrip).length) := by
  refine ⟨handler_ok_flatten cfg records, ?_, ?_⟩
  · intro h
    induction records with
    | nil => rfl
    | cons r rest ih =>
      obtain ⟨body, hr⟩ := h r (List.mem_cons_self r rest)
      have ih2 := ih fun p hp => h p (List.mem_cons_of_mem r hp)
      simp [handler, hr, ih2]
  · intro ts arn an os ns rs region trig T v hts harn hns hv
    refine ⟨((pySplit v ',').map pyStrip).map fun recipient =>
        Payload.email recipient cfg.ETLAlarmTemplate
          (emailTemplateVars an trig T os ns rs region), ?_, ?_⟩
    · simp [processRecord, get_recipients, hts, harn, hns, hv]
    · simp

/-- Closed instance of `C2_dispatch_counts`: two card records give two
calls; one ETL record with two configured recipients gives two calls. -/
theorem C2_dispatch_counts_witness :
    (handler testCfg [cardRec] =
      ([Payload.teams (cardBody "MyAlarm" "ef2929" trigCard dtX "OK" "ALARM"
        "threshold crossed" "eu-west-1")], none)) ∧
    (handler testCfg [cardRec, cardRec]).1.length = 2 ∧
    (∃ ps, processRecord testCfg
        ⟨⟨some ⟨some "MyAlarm", some "OK", some "ALARM", some "threshold crossed",
          some trigETL⟩, tsX⟩, arnX⟩ = .ok ps ∧
      ps.length = ((pySplit "a@x.com, b@x.com" ',').map pyStrip).length) := by
  refine ⟨?_, ?_, ?_⟩
  · have h := (C2_dispatch_counts testCfg [cardRec]).1 ?_
    · simpa using h
    · intro r hr
      have : r = cardRec := by simpa using hr
      subst this
      exact ⟨_, rfl⟩
  · have h := (C2_dispatch_counts testCfg [cardRec, cardRec]).2.1 ?_
    · simpa using h
    · intro r hr
      have : r = cardRec := by
        rcases List.mem_cons.mp hr with h1 | h1
        · exact h1
        · simpa using h1
      subst this
      exact ⟨cardBody "MyAlarm" "ef2929" trigCard dtX "OK" "ALARM"
        "threshold crossed" "eu-west-1", rfl⟩
  · exact (C2_dispatch_counts testCfg []).2.2 tsX arnX "MyAlarm" "OK" "ALARM"
      "threshold crossed" "eu-west-1" trigETL dtX "a@x.com, b@x.com"
      (by decide) (by decide) rfl rfl

/-- Counterexample to C3 as stated: in the batch `[cardRec, badRec]`
the malformed second record aborts the batch with `MalformedMessage`,
but only after one dispatcher call was already made for the first
record — not "before any dispatcher call is made". -/
theorem C3_abort_cex :
    (handler testCfg [cardRec, badRec]).2 = some .MalformedMessage ∧
    (handler testCfg [cardRec, badRec]).1.length = 1 := ⟨rfl, rfl⟩

/-- C3 (amended): a record whose `snsMessage` is malformed — invalid
JSON, or (once its timestamp and ARN have been accepted) missing
`Trigger` — aborts the whole batch with `MalformedMessage` when
reached: no dispatcher call is made for it or for any later record,
while the calls for the earlier, cleanly processed records have already
been made; there is no partial-success accounting or per-record
isolation. -/
theorem C3_malformed_aborts_batch (cfg : Config) (pre post : List SnsRecord)
    (r : SnsRecord)
    (hpre : ∀ p ∈ pre, ∃ ps, processRecord cfg p = .ok ps)
    (hr : r.Sns.Message = none ∨
      (∃ an os ns rs, r.Sns.Message = some ⟨an, os, ns, rs, none⟩ ∧
        (∃ T, parse_timestamp r.Sns.Timestamp = some T) ∧
        (∃ region, (pySplit r.EventSubscriptionArn ':')[3]? = some region))) :
    handler cfg (pre ++ r :: post) = ((handler cfg pre).1, some .MalformedMessage) := by
  have hstep : processRecord cfg r = .error .MalformedMessage := by
    obtain ⟨⟨msg, ts⟩, arn⟩ := r
    rcases hr with hmsg | ⟨an, os, ns, rs, hmsg, ⟨T, hts⟩, ⟨region, harn⟩⟩ <;>
      simp only at hmsg <;> subst hmsg
    · rfl
    · rcases an with _ | an <;> rcases os with _ | os <;> rcases ns with _ | ns <;>
        rcases rs with _ | rs <;>
        simp [processRecord, hts, harn]
  clear hr
  induction pre with
  | nil => simp [handler, hstep]
  | cons p pre ih =>
    obtain ⟨ps, hp⟩ := hpre p (List.mem_cons_self p pre)
    have ih2 := ih fun q hq => hpre q (List.mem_cons_of_mem p hq)
    simp [handler, hp, ih2]

/-- Closed instance of `C3_malformed_aborts_batch`: one clean card
record followed by an invalid-JSON record and by a further record that
is never reached. -/
theorem C3_malformed_aborts_batch_witness :
    handler testCfg [cardRec, badRec, cardRec] =
      ((handler testCfg [cardRec]).1, some .MalformedMessage) :=
  C3_malformed_aborts_batch testCfg [cardRec] [cardRec] badRec
    (fun p hp => by
      have : p = cardRec := by simpa using hp
      subst this
      exact ⟨_, rfl⟩)
    (Or.inl rfl)

/-- Splitting never returns an empty list of pieces. -/
theorem splitChar_ne_nil (l : List Char) (sep : Char) (acc : List Char) :
    splitChar l sep acc ≠ [] := by
  induction l generalizing acc with
  | nil => simp [splitChar]
  | cons c cs ih =>
    by_cases h : c = sep
    · simp only [splitChar, if_pos h]
      simp
    · simp only [splitChar, if_neg h]
      exact ih _

/-- Unfolding `joinWith` on a cons with a nonempty tail. -/
theorem joinWith_cons (sep : Char) (x : List Char) (L : List (List Char))
    (h : L ≠ []) : joinWith sep (x :: L) = x ++ sep :: joinWith sep L := by
  cases L with
  | nil => exact absurd rfl h
  | cons y ys => rfl

/-- Joining the pieces of `splitChar` with the separator restores the
input (prefixed by the pending accumulator). -/
theorem joinWith_splitChar (sep : Char) (l : List Char) :
    ∀ acc, joinWith sep (splitChar l sep acc) = acc.reverse ++ l := by
  induction l with
  | nil => intro acc; simp [splitChar, joinWith]
  | cons c cs ih =>
    intro acc
    by_cases h : c = sep
    · subst h
      rw [splitChar, if_pos rfl,
        joinWith_cons _ _ _ (splitChar_ne_nil cs c []), ih []]
      simp
    · rw [splitChar, if_neg h, ih (c :: acc)]
      simp

/-- No piece produced by `splitChar` contains the separator. -/
theorem splitChar_no_sep (sep : Char) (l : List Char) :
    ∀ acc, sep ∉ acc → ∀ p ∈ splitChar l sep acc, sep ∉ p := by
  induction l with
  | nil =>
    intro acc hacc p hp
    simp [splitChar] at hp
    subst hp
    simpa using hacc
  | cons c cs ih =>
    intro acc hacc p hp
    by_cases h : c = sep
    · subst h
      rw [splitChar, if_pos rfl] at hp
      rcases List.mem_cons.mp hp with h1 | h1
      · subst h1; simpa using hacc
      · exact ih [] (by simp) p h1
    · rw [splitChar, if_neg h] at hp
      refine ih (c :: acc) ?_ p hp
      intro hc
      rcases List.mem_cons.mp hc with h1 | h1
      · exact h h1.symm
      · exact hacc h1

/-- C6: `pySplit arn ':'` is exactly the list of colon-delimited
segments of the subscription ARN (joining them with `':'` restores the
ARN and no segment contains a colon); with fewer than 4 segments the
record aborts with `MalformedArn`, and otherwise the region used to
build the payload is segment 3 (0-indexed). -/
theorem C6_region_extraction (cfg : Config) (sns : SnsData) (arn : String)
    (m : AlarmMessage) (T : PyDatetime)
    (hm : sns.Message = some m) (hts : parse_timestamp sns.Timestamp = some T) :
    strJoinWith ':' (pySplit arn ':') = arn ∧
    (∀ p ∈ pySplit arn ':', ':' ∉ p.data) ∧
    ((pySplit arn ':').length < 4 →
      processRecord cfg ⟨sns, arn⟩ = .error .MalformedArn) ∧
    (∀ region, (pySplit arn ':')[3]? = some region →
      ∀ an os ns rs trig, m = ⟨some an, some os, some ns, some rs, some trig⟩ →
      trig.Namespace = "ETL" →
      ∀ v, cfg.Recipients an = some v →
        processRecord cfg ⟨sns, arn⟩ =
          .ok (((pySplit v ',').map pyStrip).map fun recipient =>
            Payload.email recipient cfg.ETLAlarmTemplate
              (emailTemplateVars an trig T os ns rs region)) ∧
        (emailTemplateVars an trig T os ns rs region).region = region) := by
  refine ⟨?_, ?_, ?_, ?_⟩
  · show (⟨joinWith ':' (((splitChar arn.data ':' []).map fun l => (⟨l⟩ : String)).map String.data)⟩ : String) = arn
    rw [List.map_map]
    have hmaps : ((splitChar arn.data ':' []).map (String.data ∘ fun l => (⟨l⟩ : String))) =
        splitChar arn.data ':' [] := List.map_id'' (fun _ => rfl) _
    rw [hmaps, joinWith_splitChar]
    rfl
  · intro p hp
    obtain ⟨piece, hpiece, rfl⟩ := List.mem_map.mp hp
    exact splitChar_no_sep ':' arn.data [] (by simp) piece hpiece
  · intro hlen
    have harn : (pySplit arn ':')[3]? = none :=
      List.getElem?_eq_none (by omega)
    simp [processRecord, hm, hts, harn]
  · intro region hregion an os ns rs trig hmm hns v hv
    subst hmm
    refine ⟨?_, rfl⟩
    simp [processRecord, get_recipients, hm, hts, hregion, hns, hv]

/-- Closed instance of `C6_region_extraction` on the fixture ARN (its
segments join back to the ARN; the fourth segment `eu-west-1` is the
region of every built payload) and on a 3-segment ARN (aborts with
`MalformedArn`). -/
theorem C6_region_extraction_witness :
    strJoinWith ':' (pySplit arnX ':') = arnX ∧
    processRecord testCfg ⟨⟨some msgCard, tsX⟩, "arn:aws:sns"⟩ =
      .error .MalformedArn ∧
    (emailTemplateVars "MyAlarm" trigETL dtX "OK" "ALARM" "threshold crossed"
      "eu-west-1").region = "eu-west-1" := by
  refine ⟨?_, ?_, ?_⟩
  · exact (C6_region_extraction testCfg ⟨some msgCard, tsX⟩ arnX msgCard dtX rfl
      (by decide)).1
  · exact (C6_region_extraction testCfg ⟨some msgCard, tsX⟩ "arn:aws:sns" msgCard
      dtX rfl (by decide)).2.2.1 (by decide)
  · exact ((C6_region_extraction testCfg ⟨some msgETL, tsX⟩ arnX msgETL dtX rfl
      (by decide)).2.2.2 "eu-west-1" (by decide) "MyAlarm" "OK" "ALARM"
      "threshold crossed" trigETL rfl rfl "a@x.com, b@x.com" rfl).2

/-- Counterexample to C8 as stated: the source's f-string writes
`periods(s)` (line 101), so the concrete card section text is not of
the claimed `period(s)` form. -/
theorem C8_section_text_cex :
    processRecord testCfg cardRec =
      .ok [.teams (cardBody "MyAlarm" "ef2929" trigCard dtX "OK" "ALARM"
        "threshold crossed" "eu-west-1")] ∧
    (cardBody "MyAlarm" "ef2929" trigCard dtX "OK" "ALARM" "threshold crossed"
        "eu-west-1").sections.map (fun s => s.text) =
      ["Average MyMetric GreaterThanThreshold 5.0 for 3 periods(s) of 60 seconds."] ∧
    "Average MyMetric GreaterThanThreshold 5.0 for 3 periods(s) of 60 seconds." ≠
      "Average MyMetric GreaterThanThreshold 5.0 for 3 period(s) of 60 seconds." :=
  ⟨rfl, rfl, by decide⟩

/-- C8 (amended): the card's single section text is exactly
`"{statistic} {metricName} {comparisonOperator} {threshold} for
{evaluationPeriods} periods(s) of {period} seconds."` — with the
source's spelling `periods(s)` — with the record's trigger fields
substituted. -/
theorem C8_section_text (cfg : Config) (ts arn an os ns rs region colour : String)
    (trig : Trigger) (T : PyDatetime)
    (hts : parse_timestamp ts = some T)
    (harn : (pySplit arn ':')[3]? = some region)
    (hns : trig.Namespace ≠ "ETL")
    (hcol : COLOURS ns = some colour) :
    processRecord cfg ⟨⟨some ⟨some an, some os, some ns, some rs, some trig⟩, ts⟩, arn⟩ =
      .ok [.teams (cardBody an colour trig T os ns rs region)] ∧
    (cardBody an colour trig T os ns rs region).sections.map (fun s => s.text) =
      [trig.Statistic ++ " " ++ trig.MetricName ++ " " ++
        trig.ComparisonOperator ++ " " ++ trig.Threshold ++ " for " ++
        trig.EvaluationPeriods ++ " periods(s) of " ++ trig.Period ++
        " seconds."] := by
  constructor
  · simp [processRecord, hts, harn, hns, hcol]
  · rfl

/-- Closed instance of `C8_section_text` at the fixture record. -/
theorem C8_section_text_witness :
    (cardBody "MyAlarm" "ef2929" trigCard dtX "OK" "ALARM" "threshold crossed"
        "eu-west-1").sections.map (fun s => s.text) =
      [trigCard.Statistic ++ " " ++ trigCard.MetricName ++ " " ++
        trigCard.ComparisonOperator ++ " " ++ trigCard.Threshold ++ " for " ++
        trigCard.EvaluationPeriods ++ " periods(s) of " ++ trigCard.Period ++
        " seconds."] :=
  (C8_section_text testCfg tsX arnX "MyAlarm" "OK" "ALARM" "threshold crossed"
    "eu-west-1" "ef2929" trigCard dtX (by decide) (by decide) (by decide) rfl).2

/-- No character of `hexDigit`'s output is a space or an ampersand. -/
theorem hexDigit_ne_space_amp (n : Nat) : hexDigit n ≠ ' ' ∧ hexDigit n ≠ '&' := by
  unfold hexDigit
  split <;> decide

/-- The `urllib.parse.quote` output never contains a raw space or `&`:
reserved characters really are percent-encoded away. -/
theorem quote_no_space_amp (s : String) :
    ∀ c ∈ (quote s).data, c ≠ ' ' ∧ c ≠ '&' := by
  intro c hc
  have hc2 : c ∈ (s.data.map fun ch =>
      if quoteSafe ch then [ch]
      else ((utf8Bytes ch).map percentByte).flatten).flatten := hc
  rw [List.mem_flatten] at hc2
  obtain ⟨block, hblock, hcblock⟩ := hc2
  rw [List.mem_map] at hblock
  obtain ⟨ch, -, rfl⟩ := hblock
  by_cases hsafe : quoteSafe ch
  · rw [if_pos hsafe] at hcblock
    rw [List.mem_singleton] at hcblock
    subst hcblock
    constructor
    · rintro rfl; exact absurd hsafe (by decide)
    · rintro rfl; exact absurd hsafe (by decide)
  · rw [if_neg hsafe] at hcblock
    rw [List.mem_flatten] at hcblock
    obtain ⟨pb, hpb, hcpb⟩ := hcblock
    rw [List.mem_map] at hpb
    obtain ⟨b, -, rfl⟩ := hpb
    rw [show percentByte b = ['%', hexDigit (b / 16), hexDigit (b % 16)] from rfl,
      List.mem_cons, List.mem_cons, List.mem_singleton] at hcpb
    rcases hcpb with rfl | rfl | rfl
    · decide
    · exact hexDigit_ne_space_amp _
    · exact hexDigit_ne_space_amp _

/-- C9: the card's single action links to exactly
`https://console.aws.amazon.com/cloudwatch/home?region={region}#alarm:alarmFilter=ANY;name={quote(alarmName)}`
with the alarm name percent-encoded (no raw space or `&` survives
quoting), while the alarm name appears unmodified in the card's summary
and section title and in the e-mail `template_vars` (`alarm_name`), the
fact values being verbatim copies of the input fields. -/
theorem C9_console_link (cfg : Config) (ts arn an os ns rs region colour : String)
    (trig : Trigger) (T : PyDatetime)
    (hts : parse_timestamp ts = some T)
    (harn : (pySplit arn ':')[3]? = some region)
    (hns : trig.Namespace ≠ "ETL")
    (hcol : COLOURS ns = some colour) :
    processRecord cfg ⟨⟨some ⟨some an, some os, some ns, some rs, some trig⟩, ts⟩, arn⟩ =
      .ok [.teams (cardBody an colour trig T os ns rs region)] ∧
    (cardBody an colour trig T os ns rs region).potentialAction.map
        (fun a => a.targets.map fun t => t.uri) =
      [["https://console.aws.amazon.com/cloudwatch/home?region=" ++ region ++
        "#alarm:alarmFilter=ANY;name=" ++ quote an]] ∧
    (cardBody an colour trig T os ns rs region).summary =
      "AWS Cloudwatch Alarm: " ++ an ++ " has transitioned" ∧
    (cardBody an colour trig T os ns rs region).sections.map (fun s => s.title) =
      [an ++ " has transitioned"] ∧
    (cardBody an colour trig T os ns rs region).sections.map (fun s => s.facts) =
      [[⟨"Time", isoformat T⟩, ⟨"Old State", os⟩, ⟨"New State", ns⟩,
        ⟨"Reason", rs⟩]] ∧
    (emailTemplateVars an trig T os ns rs region).alarm_name = an ∧
    (emailTemplateVars an trig T os ns rs region).quoted_alarm_name = quote an ∧
    (∀ c ∈ (quote an).data, c ≠ ' ' ∧ c ≠ '&') := by
  refine ⟨?_, rfl, rfl, rfl, rfl, rfl, rfl, quote_no_space_amp an⟩
  simp [processRecord, hts, harn, hns, hcol]

/-- Closed instance of `C9_console_link` at the alarm name
`"My Alarm&Co"`: the link carries `My%20Alarm%26Co` while the summary
carries the raw name. -/
theorem C9_console_link_witness :
    processRecord testCfg
        ⟨⟨some ⟨some "My Alarm&Co", some "OK", some "ALARM", some "threshold crossed",
          some trigCard⟩, tsX⟩, arnX⟩ =
      .ok [.teams (cardBody "My Alarm&Co" "ef2929" trigCard dtX "OK" "ALARM"
        "threshold crossed" "eu-west-1")] ∧
    (cardBody "My Alarm&Co" "ef2929" trigCard dtX "OK" "ALARM"
        "threshold crossed" "eu-west-1").potentialAction.map
        (fun a => a.targets.map fun t => t.uri) =
      [["https://console.aws.amazon.com/cloudwatch/home?region=eu-west-1" ++
        "#alarm:alarmFilter=ANY;name=My%20Alarm%26Co"]] ∧
    (cardBody "My Alarm&Co" "ef2929" trigCard dtX "OK" "ALARM"
        "threshold crossed" "eu-west-1").summary =
      "AWS Cloudwatch Alarm: My Alarm&Co has transitioned" := by
  have h := C9_console_link testCfg tsX arnX "My Alarm&Co" "OK" "ALARM"
    "threshold crossed" "eu-west-1" "ef2929" trigCard dtX (by decide) (by decide)
    (by decide) rfl
  refine ⟨h.1, ?_, ?_⟩
  · rw [h.2.1]; rfl
  · rw [h.2.2.1]; rfl

/-- Reading back a digit character recovers the digit. -/
theorem digitVal_digitChar (d : Nat) (h : d < 10) :
    digitVal (digitChar d) = some d := by
  interval_cases d <;> decide

/-- Rendering a digit yields a decimal digit character. -/
theorem digitChar_bounds (d : Nat) (h : d < 10) :
    '0' ≤ digitChar d ∧ digitChar d ≤ '9' := by
  interval_cases d <;> decide

/-- Padding to two places renders only digit characters. -/
theorem pad2_digits (n : Nat) (h : n < 100) :
    ∀ c ∈ pad2 n, '0' ≤ c ∧ c ≤ '9' := by
  intro c hc
  rcases List.mem_cons.mp hc with rfl | hc2
  · exact digitChar_bounds _ (by omega)
  · rw [List.mem_singleton] at hc2
    subst hc2
    exact digitChar_bounds _ (by omega)

/-- Padding to six places renders only digit characters. -/
theorem pad6_digits (n : Nat) (h : n < 1000000) :
    ∀ c ∈ pad6 n, '0' ≤ c ∧ c ≤ '9' := by
  intro c hc
  simp only [pad6, List.mem_cons, List.mem_singleton, List.not_mem_nil, or_false] at hc
  rcases hc with rfl | rfl | rfl | rfl | rfl | rfl <;>
    exact digitChar_bounds _ (by omega)

/-- Reading two rendered digits recovers the number below 100. -/
theorem read2_pad2 (n : Nat) (h : n < 100) (rest : List Char) :
    read2 (pad2 n ++ rest) = some (n, rest) := by
  have h1 := digitVal_digitChar (n / 10) (by omega)
  have h2 := digitVal_digitChar (n % 10) (by omega)
  simp [read2, pad2, h1, h2]
  omega

/-- Reading two digits at the very end of the input. -/
theorem read2_pad2_nil (n : Nat) (h : n < 100) :
    read2 (pad2 n) = some (n, []) := by
  have := read2_pad2 n h []
  simpa using this

/-- Reading four rendered digits recovers the number below 10000. -/
theorem read4_pad4 (n : Nat) (h : n < 10000) (rest : List Char) :
    read4 (pad4 n ++ rest) = some (n, rest) := by
  have h1 := digitVal_digitChar (n / 1000) (by omega)
  have h2 := digitVal_digitChar (n / 100 % 10) (by omega)
  have h3 := digitVal_digitChar (n / 10 % 10) (by omega)
  have h4 := digitVal_digitChar (n % 10) (by omega)
  simp [read4, pad4, h1, h2, h3, h4]
  omega

/-- Reading three rendered digit characters. -/
theorem read3_digits (a b c : Nat) (ha : a < 10) (hb : b < 10) (hc : c < 10)
    (rest : List Char) :
    read3 (digitChar a :: digitChar b :: digitChar c :: rest) =
      some ((a * 10 + b) * 10 + c, rest) := by
  simp [read3, digitVal_digitChar a ha, digitVal_digitChar b hb,
    digitVal_digitChar c hc]

/-- Reading the six rendered digits of `pad6` recovers the number below
one million. -/
theorem read6_pad6 (n : Nat) (h : n < 1000000) : read6 (pad6 n) = some (n, []) := by
  have e1 := read3_digits (n / 100000) (n / 10000 % 10) (n / 1000 % 10)
    (by omega) (by omega) (by omega)
    [digitChar (n / 100 % 10), digitChar (n / 10 % 10), digitChar (n % 10)]
  have e2 := read3_digits (n / 100 % 10) (n / 10 % 10) (n % 10)
    (by omega) (by omega) (by omega) []
  simp [read6, pad6, e1, e2]
  omega

/-- The fraction parser inverts `pad6` for a microsecond count. -/
theorem parseFrac_pad6 (n : Nat) (h : n < 1000000) :
    parseFrac (pad6 n) = some n := by
  have hlen : (pad6 n).length = 6 := rfl
  simp [parseFrac, hlen, read6_pad6 n h]

/-- Breaking finds nothing when the separator is absent. -/
theorem breakAt_not_mem (sep : Char) (l : List Char) (h : sep ∉ l) :
    breakAt sep l = none := by
  induction l with
  | nil => rfl
  | cons c cs ih =>
    have hc : c ≠ sep := fun e => h (e ▸ List.mem_cons_self c cs)
    rw [breakAt, if_neg (fun e => hc e),
      ih fun hm => h (List.mem_cons_of_mem c hm)]

/-- Breaking splits at the first occurrence of the separator. -/
theorem breakAt_append (sep : Char) (l r : List Char) (h : sep ∉ l) :
    breakAt sep (l ++ sep :: r) = some (l, sep :: r) := by
  induction l with
  | nil => simp [breakAt]
  | cons c cs ih =>
    have hc : c ≠ sep := fun e => h (e ▸ List.mem_cons_self c cs)
    rw [List.cons_append, breakAt, if_neg (fun e => hc e),
      ih fun hm => h (List.mem_cons_of_mem c hm)]

/-- The offset split leaves a sign-free string whole, with an empty offset. -/
theorem tzSplit_no_sign (l : List Char) (h1 : '-' ∉ l) (h2 : '+' ∉ l) :
    tzSplit l = (l, []) := by
  rw [tzSplit, breakAt_not_mem '-' l h1, breakAt_not_mem '+' l h2]

/-- The offset split cuts a `+`-signed offset off a `-`-free string. -/
theorem tzSplit_plus (l r : List Char) (hm : '-' ∉ l ++ '+' :: r)
    (hp : '+' ∉ l) : tzSplit (l ++ '+' :: r) = (l, '+' :: r) := by
  rw [tzSplit, breakAt_not_mem '-' _ hm, breakAt_append '+' l r hp]

/-- The offset split cuts a `-`-signed offset off a `-`-free prefix. -/
theorem tzSplit_minus (l r : List Char) (hm : '-' ∉ l) :
    tzSplit (l ++ '-' :: r) = (l, '-' :: r) := by
  rw [tzSplit, breakAt_append '-' l r hm]

/-- Every character of the rendered time-of-day part is a digit, a
colon or a dot. -/
theorem timeOnly_chars (dt : PyDatetime) (hh : dt.hour < 100)
    (hm : dt.minute < 100) (hs : dt.second < 100) (hus : dt.microsecond < 1000000) :
    ∀ c ∈ timeOnly dt, ('0' ≤ c ∧ c ≤ '9') ∨ c = ':' ∨ c = '.' := by
  unfold timeOnly fracPart
  refine List.forall_mem_append.mpr ⟨List.forall_mem_append.mpr
    ⟨List.forall_mem_append.mpr
      ⟨fun c hc => Or.inl (pad2_digits _ hh c hc),
       List.forall_mem_cons.mpr
        ⟨Or.inr (Or.inl rfl), fun c hc => Or.inl (pad2_digits _ hm c hc)⟩⟩,
     List.forall_mem_cons.mpr
      ⟨Or.inr (Or.inl rfl), fun c hc => Or.inl (pad2_digits _ hs c hc)⟩⟩, ?_⟩
  intro c hc
  by_cases h0 : dt.microsecond = 0
  · rw [if_pos h0] at hc
    exact absurd hc (List.not_mem_nil c)
  · rw [if_neg h0] at hc
    rcases List.mem_cons.mp hc with rfl | h2
    · exact Or.inr (Or.inr rfl)
    · exact Or.inl (pad6_digits _ hus c h2)

/-- No sign character occurs in the rendered time-of-day part. -/
theorem timeOnly_no_sign (dt : PyDatetime) (hh : dt.hour < 100)
    (hm : dt.minute < 100) (hs : dt.second < 100) (hus : dt.microsecond < 1000000) :
    '-' ∉ timeOnly dt ∧ '+' ∉ timeOnly dt := by
  constructor <;> intro hmem <;>
    rcases timeOnly_chars dt hh hm hs hus _ hmem with h | h | h <;>
      first
        | exact absurd h.1 (by decide)
        | exact absurd h (by decide)

/-- The time parser inverts the rendered time-of-day part. -/
theorem parseTimePart_timeOnly (dt : PyDatetime) (hh : dt.hour < 100)
    (hm : dt.minute < 100) (hs : dt.second < 100)
    (hus : dt.microsecond < 1000000) :
    parseTimePart (timeOnly dt) =
      some (dt.hour, dt.minute, dt.second, dt.microsecond) := by
  have hshape : timeOnly dt =
      pad2 dt.hour ++ ':' :: (pad2 dt.minute ++ ':' :: (pad2 dt.second ++ fracPart dt)) := by
    simp [timeOnly]
  rw [hshape]
  by_cases h0 : dt.microsecond = 0
  · rw [show fracPart dt = [] from by simp [fracPart, h0]]
    simp [parseTimePart, read2_pad2 _ hh, read2_pad2 _ hm, read2_pad2 _ hs,
      read2_pad2_nil _ hs, h0]
  · rw [show fracPart dt = '.' :: pad6 dt.microsecond from by simp [fracPart, h0]]
    simp [parseTimePart, read2_pad2 _ hh, read2_pad2 _ hm, read2_pad2 _ hs,
      parseFrac_pad6 _ hus]

/-- The offset parser inverts the rendered offset tail. -/
theorem parseTzPart_offPart (dt : PyDatetime)
    (hb : ∀ o, dt.utcoffset = some o → o.natAbs ≤ 1439) :
    parseTzPart (offPart dt) = some dt.utcoffset := by
  rcases ho : dt.utcoffset with _ | o
  · simp [offPart, ho, parseTzPart]
  · have hoa := hb o ho
    have hH : o.natAbs / 60 < 100 := by omega
    have hM : o.natAbs % 60 < 100 := by omega
    have key : o.natAbs / 60 * 60 + o.natAbs % 60 = o.natAbs := by omega
    by_cases hneg : o < 0
    · rw [show offPart dt = '-' :: (pad2 (o.natAbs / 60) ++ ':' :: pad2 (o.natAbs % 60))
        from by simp [offPart, ho, hneg]]
      simp only [parseTzPart, read2_pad2 _ hH, read2_pad2_nil _ hM, key]
      have : -(o.natAbs : Int) = o := by omega
      rw [this]
    · rw [show offPart dt = '+' :: (pad2 (o.natAbs / 60) ++ ':' :: pad2 (o.natAbs % 60))
        from by simp [offPart, ho, hneg]]
      simp only [parseTzPart, read2_pad2 _ hH, read2_pad2_nil _ hM, key]
      have : ((o.natAbs : Nat) : Int) = o := by omega
      rw [this]

/-- The offset split separates the rendered time-of-day part from the rendered
offset tail. -/
theorem tzSplit_timeOnly_offPart (dt : PyDatetime) (hh : dt.hour < 100)
    (hm : dt.minute < 100) (hs : dt.second < 100)
    (hus : dt.microsecond < 1000000)
    (hb : ∀ o, dt.utcoffset = some o → o.natAbs ≤ 1439) :
    tzSplit (timeOnly dt ++ offPart dt) = (timeOnly dt, offPart dt) := by
  obtain ⟨hminus, hplus⟩ := timeOnly_no_sign dt hh hm hs hus
  rcases ho : dt.utcoffset with _ | o
  · rw [show offPart dt = [] from by simp [offPart, ho], List.append_nil]
    exact tzSplit_no_sign _ hminus hplus
  · have hoa := hb o ho
    have hH : o.natAbs / 60 < 100 := by omega
    have hM : o.natAbs % 60 < 100 := by omega
    by_cases hneg : o < 0
    · rw [show offPart dt = '-' :: (pad2 (o.natAbs / 60) ++ ':' :: pad2 (o.natAbs % 60))
        from by simp [offPart, ho, hneg]]
      exact tzSplit_minus _ _ hminus
    · rw [show offPart dt = '+' :: (pad2 (o.natAbs / 60) ++ ':' :: pad2 (o.natAbs % 60))
        from by simp [offPart, ho, hneg]]
      refine tzSplit_plus _ _ ?_ hplus
      intro hmem
      rcases List.mem_append.mp hmem with h | h
      · exact hminus h
      · rcases List.mem_cons.mp h with h1 | h1
        · exact absurd h1 (by decide)
        · rcases List.mem_append.mp h1 with h2 | h2
          · exact absurd (pad2_digits _ hH _ h2).1 (by decide)
          · rcases List.mem_cons.mp h2 with h3 | h3
            · exact absurd h3 (by decide)
            · exact absurd (pad2_digits _ hM _ h3).1 (by decide)

/-- No month is longer than 31 days. -/
theorem daysInMonth_le (y m : Nat) : daysInMonth y m ≤ 31 := by
  unfold daysInMonth
  split
  all_goals first
    | omega
    | (split <;> omega)

/-- A successful `checkValid` passes the range checks and returns its
input. -/
theorem checkValid_some (x dt : PyDatetime) (h : checkValid x = some dt) :
    validDt dt = true ∧ x = dt := by
  by_cases hv : validDt x
  · rw [checkValid, if_pos hv] at h
    cases h
    exact ⟨hv, rfl⟩
  · rw [checkValid, if_neg hv] at h
    exact Option.noConfusion h

/-- Everything `fromisoChars` accepts passes the `datetime` range
checks. -/
theorem validDt_of_fromisoChars (l : List Char) (dt : PyDatetime)
    (h : fromisoChars l = some dt) : validDt dt = true := by
  unfold fromisoChars at h
  repeat' split at h
  all_goals first
    | exact Option.noConfusion h
    | exact (checkValid_some _ _ h).1

/-- Re-parsing the ISO rendering of any in-range datetime recovers it
exactly. -/
theorem fromisoformat_isoformat (dt : PyDatetime) (hv : validDt dt = true) :
    fromisoformat (isoformat dt) = some dt := by
  have hv2 := hv
  simp only [validDt, decide_eq_true_eq] at hv2
  obtain ⟨h1, h2, h3, h4, h5, h6, h7, h8, h9, h10, h11⟩ := hv2
  have hb : ∀ o, dt.utcoffset = some o → o.natAbs ≤ 1439 := by
    intro o ho
    rw [ho] at h11
    simpa using h11
  have hshape : (isoformat dt).data =
      pad4 dt.year ++ ('-' :: (pad2 dt.month ++ ('-' :: (pad2 dt.day ++
        ('T' :: (timeOnly dt ++ offPart dt)))))) := by
    simp [isoformat]
  have hday : dt.day < 100 := by
    have := daysInMonth_le dt.year dt.month
    omega
  show fromisoChars (isoformat dt).data = some dt
  rw [hshape]
  simp only [fromisoChars, read4_pad4 dt.year (by omega),
    read2_pad2 dt.month (by omega), read2_pad2 dt.day hday,
    tzSplit_timeOnly_offPart dt (by omega) (by omega) (by omega) (by omega) hb,
    parseTimePart_timeOnly dt (by omega) (by omega) (by omega) (by omega),
    parseTzPart_offPart dt hb]
  show checkValid dt = some dt
  rw [checkValid, if_pos hv]

/-- Replacement is the identity on `Z`-free character lists. -/
theorem replaceZ_aux (l : List Char) (h : 'Z' ∉ l) :
    (l.map fun c =>
      if c = 'Z' then ('+' :: '0' :: '0' :: ':' :: '0' :: '0' :: []) else [c]).flatten = l := by
  induction l with
  | nil => rfl
  | cons c cs ih =>
    have hc : c ≠ 'Z' := fun e => h (e ▸ List.mem_cons_self c cs)
    simp only [List.map_cons, List.flatten_cons, if_neg hc, List.singleton_append]
    exact congrArg (List.cons c) (ih fun hm => h (List.mem_cons_of_mem c hm))

/-- On a string whose only `"Z"` is the trailing one, the
`replace("Z", "+00:00")` of line 56 exactly appends the UTC offset. -/
theorem replaceZ_append_Z (body : String) (h : 'Z' ∉ body.data) :
    replaceZ (body ++ "Z") = body ++ "+00:00" := by
  apply String.ext
  show ((body ++ "Z").data.map _).flatten = (body ++ "+00:00").data
  rw [String.data_append, String.data_append, List.map_append, List.flatten_append,
    replaceZ_aux body.data h]
  rfl

/-- C7: a trailing `"Z"` is read as UTC offset `+00:00` (for any
`Z`-free prefix the parsed value coincides with parsing
`body ++ "+00:00"`); any successfully parsed timestamp re-serializes by
`isoformat` to a string that parses back to the very same datetime (so
in particular to the same instant); and a timestamp that fails to parse
aborts the record with `MalformedTimestamp`. -/
theorem C7_timestamp_roundtrip :
    (∀ body : String, 'Z' ∉ body.data →
      parse_timestamp (body ++ "Z") = fromisoformat (body ++ "+00:00")) ∧
    (∀ s dt, parse_timestamp s = some dt →
      fromisoformat (isoformat dt) = some dt) ∧
    (∀ cfg (m : AlarmMessage) ts arn, parse_timestamp ts = none →
      processRecord cfg ⟨⟨some m, ts⟩, arn⟩ = .error .MalformedTimestamp) := by
  refine ⟨?_, ?_, ?_⟩
  · intro body h
    rw [parse_timestamp, replaceZ_append_Z body h]
  · intro s dt h
    exact fromisoformat_isoformat dt (validDt_of_fromisoChars (replaceZ s).data dt h)
  · intro cfg m ts arn h
    simp [processRecord, h]

/-- Closed instance of `C7_timestamp_roundtrip` on the fixture
timestamp. -/
theorem C7_timestamp_roundtrip_witness :
    parse_timestamp tsX = fromisoformat "2017-01-12T16:30:42.318+00:00" ∧
    fromisoformat (isoformat dtX) = some dtX ∧
    processRecord testCfg ⟨⟨some msgCard, "not-a-timestamp"⟩, arnX⟩ =
      .error .MalformedTimestamp := by
  refine ⟨?_, ?_, ?_⟩
  · exact C7_timestamp_roundtrip.1 "2017-01-12T16:30:42.318" (by decide)
  · exact C7_timestamp_roundtrip.2.1 tsX dtX (by decide)
  · exact C7_timestamp_roundtrip.2.2 testCfg msgCard "not-a-timestamp" arnX
      (by decide)
